import Mathlib

/-!
Verification development for the course-support assistant repository.

The development shallowly embeds the pure parts of the repository:
  * the citation parser `_extract_source_info` / `_parse_result`
    (`lightrag_client.py`),
  * the status mapping of `LightRAGClient.query` (`lightrag_client.py`),
    with the HTTP transport outcome supplied as an explicit input,
  * the snapshot locators `parse_snapshot_for_text` /
    `parse_snapshot_for_input` and `validate_moodle_url`
    (`moodle_helpers.py`),
  * the control flow of `fill_moodle_forum` (`course_tools.py`),
    recording the MCP primitive calls it issues as an explicit trace,
  * the cooperative-scheduling behaviour of `MCPClient.connect`
    (`mcp_config.py`) as a small state machine stepped by an explicit
    schedule.

Regular expressions in the source are concrete, so each one is embedded as a
dedicated anchored matcher over `List Char`; `re.search` is embedded as the
leftmost anchored match.  Greedy quantifiers whose character class is
disjoint from what follows are embedded by maximal-munch; the two places
where Python's backtracking is observable (a `[_\s-]*` or `[:\s]+` run
followed by a capture group whose class overlaps it) use the backtracking
combinators below.  Case-insensitive matching is embedded with an ASCII
case map (the source's `str.lower`/`re.IGNORECASE` additionally folds
non-ASCII letters).
-/

/-- ASCII lower-casing (code points 65–90 are `A`–`Z`), the case map used
throughout the embedding. -/
def lowerChar (c : Char) : Char :=
  if 65 ≤ c.toNat ∧ c.toNat ≤ 90 then Char.ofNat (c.toNat + 32) else c

/-- Case-insensitive character comparison (`re.IGNORECASE`). -/
def ciEq (a b : Char) : Bool := lowerChar a == lowerChar b

/-- Python's `\d`: an ASCII decimal digit (code points 48–57 are `0`–`9`). -/
def isDigitChar (c : Char) : Bool := decide (48 ≤ c.toNat ∧ c.toNat ≤ 57)

/-- Python's `\s`: space, tab, newline, vertical tab, form feed, carriage
return (code points 32, 9, 10, 11, 12, 13). -/
def pySpace (c : Char) : Bool :=
  decide (c.toNat = 32 ∨ c.toNat = 9 ∨ c.toNat = 10 ∨ c.toNat = 11 ∨
    c.toNat = 12 ∨ c.toNat = 13)

/-- The separator class `[_\s-]` used by the citation patterns
(code point 95 is `_`, 45 is `-`). -/
def isSep (c : Char) : Bool := c.toNat = 95 || pySpace c || c.toNat = 45

/-- The class `[\d\-]` capturing slide ranges. -/
def isDigitHyphen (c : Char) : Bool := isDigitChar c || c.toNat = 45

/-- Python's `str.lower` (ASCII model). -/
def lowerStr (s : String) : String := ⟨s.data.map lowerChar⟩

/-- Case-sensitive literal prefix: consumes `pat` from `s`, returns the rest. -/
def dropPrefixExact : List Char → List Char → Option (List Char)
  | [], s => some s
  | _ :: _, [] => none
  | p :: ps, c :: cs => if p = c then dropPrefixExact ps cs else none

/-- Case-insensitive literal prefix (`re.IGNORECASE` literals). -/
def dropPrefixCI : List Char → List Char → Option (List Char)
  | [], s => some s
  | _ :: _, [] => none
  | p :: ps, c :: cs => if ciEq p c then dropPrefixCI ps cs else none

/-- An optional case-insensitive literal character (`x?` under IGNORECASE). -/
def optCI (p : Char) : List Char → List Char
  | [] => []
  | c :: cs => if ciEq p c then cs else c :: cs

/-- Python substring membership `needle in hay` over character lists. -/
def listContains (needle : List Char) : List Char → Bool
  | [] => needle.isPrefixOf ([] : List Char)
  | c :: cs => needle.isPrefixOf (c :: cs) || listContains needle cs

/-- Python substring membership `needle in hay` over strings. -/
def strContains (hay needle : String) : Bool := listContains needle.data hay.data

/--
`sep* (cls+)` at the end of a pattern, with Python's backtracking: the
greedy `sep*` run gives back characters until the capture group `cls+` can
start (needed where `sep` and `cls` overlap, e.g. `[_\s-]*([\d\-]+)`).
Returns the captured group.
-/
def sepStarClassPlusEnd (sep cls : Char → Bool) : List Char → Option (List Char)
  | [] => none
  | c :: cs =>
    if sep c then
      match sepStarClassPlusEnd sep cls cs with
      | some g => some g
      | none => if cls c then some ((c :: cs).takeWhile cls) else none
    else if cls c then some ((c :: cs).takeWhile cls)
    else none

/-- `sep+ (cls+)` at the end of a pattern (e.g. `[:\s]+([^\]\s,]+)`). -/
def sepPlusClassPlusEnd (sep cls : Char → Bool) : List Char → Option (List Char)
  | [] => none
  | c :: cs => if sep c then sepStarClassPlusEnd sep cls cs else none

/-- Exactly `n` characters of class `p` (`\d{n}`). -/
def takeExactly : Nat → (Char → Bool) → List Char → Option (List Char × List Char)
  | 0, _, s => some ([], s)
  | _ + 1, _, [] => none
  | n + 1, p, c :: cs =>
    if p c then
      match takeExactly n p cs with
      | some (g, r) => some (c :: g, r)
      | none => none
    else none

/-- `re.search`: try the anchored matcher at every position, leftmost first. -/
def reSearch (m : List Char → Option α) : List Char → Option α
  | [] => m []
  | c :: cs =>
    match m (c :: cs) with
    | some r => some r
    | none => reSearch m cs

/-- Captured groups of one pattern of the citation parser. -/
inductive PatGroups where
  | one (g : String)
  | two (g1 g2 : String)
  deriving DecidableEq

/-- Anchored matcher for `lecture[_\s-]*(\d+)[_\s-]*slides?[_\s-]*([\d\-]+)`. -/
def lecSlideStdAt (s : List Char) : Option PatGroups :=
  match dropPrefixCI "lecture".data s with
  | none => none
  | some s1 =>
    let s2 := s1.dropWhile isSep
    let g1 := s2.takeWhile isDigitChar
    let s3 := s2.dropWhile isDigitChar
    if g1.isEmpty then none
    else
      let s4 := s3.dropWhile isSep
      match dropPrefixCI "slide".data s4 with
      | none => none
      | some s5 =>
        let s6 := optCI 's' s5
        match sepStarClassPlusEnd isSep isDigitHyphen s6 with
        | none => none
        | some g2 => some (.two g1.asString g2.asString)

/-- Anchored matcher for `第(\d+)讲[_\s-]*幻灯片([\d\-]+)`. -/
def lecSlideCNAt (s : List Char) : Option PatGroups :=
  match dropPrefixCI "第".data s with
  | none => none
  | some s1 =>
    let g1 := s1.takeWhile isDigitChar
    let s2 := s1.dropWhile isDigitChar
    if g1.isEmpty then none
    else
      match dropPrefixCI "讲".data s2 with
      | none => none
      | some s3 =>
        let s4 := s3.dropWhile isSep
        match dropPrefixCI "幻灯片".data s4 with
        | none => none
        | some s5 =>
          let g2 := s5.takeWhile isDigitHyphen
          if g2.isEmpty then none else some (.two g1.asString g2.asString)

/-- Anchored matcher for `slides?[_\s-]*(\d{8})`. -/
def slidesDateAt (s : List Char) : Option PatGroups :=
  match dropPrefixCI "slide".data s with
  | none => none
  | some s1 =>
    let s2 := optCI 's' s1
    let s3 := s2.dropWhile isSep
    match takeExactly 8 isDigitChar s3 with
    | none => none
    | some (g, _) => some (.one g.asString)

/-- Anchored matcher for `lecture(\d+)[_\s-]*slide[_\s-]*([\d\-]+)`. -/
def lecSlideCompactAt (s : List Char) : Option PatGroups :=
  match dropPrefixCI "lecture".data s with
  | none => none
  | some s1 =>
    let g1 := s1.takeWhile isDigitChar
    let s2 := s1.dropWhile isDigitChar
    if g1.isEmpty then none
    else
      let s3 := s2.dropWhile isSep
      match dropPrefixCI "slide".data s3 with
      | none => none
      | some s4 =>
        match sepStarClassPlusEnd isSep isDigitHyphen s4 with
        | none => none
        | some g2 => some (.two g1.asString g2.asString)

/-- Anchored matcher for `lecture[_\s-]*(\d+)`. -/
def lecNumAt (s : List Char) : Option PatGroups :=
  match dropPrefixCI "lecture".data s with
  | none => none
  | some s1 =>
    let s2 := s1.dropWhile isSep
    let g1 := s2.takeWhile isDigitChar
    if g1.isEmpty then none else some (.one g1.asString)

/-- The `lecture_patterns` list of `_extract_source_info`, in source order. -/
def lecturePatterns : List (List Char → Option PatGroups) :=
  [lecSlideStdAt, lecSlideCNAt, slidesDateAt, lecSlideCompactAt, lecNumAt]

/-- Anchored matcher for `exam[_\s-]*(\d{4})[_\s-]*q(\d+)`. -/
def examQAt (s : List Char) : Option (String × String) :=
  match dropPrefixCI "exam".data s with
  | none => none
  | some s1 =>
    let s2 := s1.dropWhile isSep
    match takeExactly 4 isDigitChar s2 with
    | none => none
    | some (g1, s3) =>
      let s4 := s3.dropWhile isSep
      match dropPrefixCI "q".data s4 with
      | none => none
      | some s5 =>
        let g2 := s5.takeWhile isDigitChar
        if g2.isEmpty then none else some (g1.asString, g2.asString)

/-- The class `[年_\s-]` of the Chinese exam pattern. -/
def isSepYear (c : Char) : Bool := c = '年' || isSep c

/-- Anchored matcher for `(\d{4})[年_\s-]*考试[_\s-]*第?(\d+)题?`. -/
def examCNAt (s : List Char) : Option (String × String) :=
  match takeExactly 4 isDigitChar s with
  | none => none
  | some (g1, s1) =>
    let s2 := s1.dropWhile isSepYear
    match dropPrefixCI "考试".data s2 with
    | none => none
    | some s3 =>
      let s4 := s3.dropWhile isSep
      let s5 := optCI '第' s4
      let g2 := s5.takeWhile isDigitChar
      if g2.isEmpty then none else some (g1.asString, g2.asString)

/-- Anchored matcher for `exam[_\s-]*(\d{4})[_\s-]*question[_\s-]*(\d+)`. -/
def examQuestionAt (s : List Char) : Option (String × String) :=
  match dropPrefixCI "exam".data s with
  | none => none
  | some s1 =>
    let s2 := s1.dropWhile isSep
    match takeExactly 4 isDigitChar s2 with
    | none => none
    | some (g1, s3) =>
      let s4 := s3.dropWhile isSep
      match dropPrefixCI "question".data s4 with
      | none => none
      | some s5 =>
        let s6 := s5.dropWhile isSep
        let g2 := s6.takeWhile isDigitChar
        if g2.isEmpty then none else some (g1.asString, g2.asString)

/-- Anchored matcher for `test[_\s-]*(\d{4})[_\s-]*(\d+)`. -/
def testPatAt (s : List Char) : Option (String × String) :=
  match dropPrefixCI "test".data s with
  | none => none
  | some s1 =>
    let s2 := s1.dropWhile isSep
    match takeExactly 4 isDigitChar s2 with
    | none => none
    | some (g1, s3) =>
      let s4 := s3.dropWhile isSep
      let g2 := s4.takeWhile isDigitChar
      if g2.isEmpty then none else some (g1.asString, g2.asString)

/-- The `exam_patterns` list of `_extract_source_info`, in source order. -/
def examPatterns : List (List Char → Option (String × String)) :=
  [examQAt, examCNAt, examQuestionAt, testPatAt]

/-- Python's `str.split(sep)` for a one-character separator, over char lists. -/
def splitOnChar (sep : Char) : List Char → List (List Char)
  | [] => [[]]
  | c :: cs =>
    if c = sep then [] :: splitOnChar sep cs
    else
      match splitOnChar sep cs with
      | [] => [[c]]
      | g :: gs => (c :: g) :: gs

/-- Python's `str.split(sep)` for a one-character separator, over strings. -/
def pySplit (sep : Char) (s : String) : List String :=
  (splitOnChar sep s.data).map List.asString

/-- Python `int` applied to a captured digit string. -/
def digitsToNat (s : String) : Nat :=
  s.data.foldl (fun n c => n * 10 + (c.toNat - 48)) 0

/-- A raw source reference as returned by the LightRAG service. -/
structure RawReference where
  referenceId : String
  filePath : String
  deriving DecidableEq

/-- The typed citation records built by `_extract_source_info`. -/
inductive Citation where
  | lecture (referenceId filePath : String) (lectureId : Nat)
      (slideRange : Option String) (citation : String)
  | dated (referenceId filePath : String) (date : String) (citation : String)
  | exam (referenceId filePath : String) (examYear : String)
      (questionNum : Nat) (citation : String)
  | document (referenceId filePath : String) (citation : String)
  deriving DecidableEq

/-- The first matching lecture-family pattern (`for pattern in lecture_patterns`). -/
def firstLectureMatch (fileName : List Char) : Option PatGroups :=
  lecturePatterns.findSome? (fun m => reSearch m fileName)

/-- The first matching exam pattern (`for pattern in exam_patterns`). -/
def firstExamMatch (fileName : List Char) : Option (String × String) :=
  examPatterns.findSome? (fun m => reSearch m fileName)

/-- Embedding of `LightRAGClient._extract_source_info`. -/
def extractSourceInfo (reference : RawReference) : Option Citation :=
  let filePath := reference.filePath
  let referenceId := reference.referenceId
  if filePath = "" then none
  else
    let fileName := (pySplit '/' filePath).getLastD ""
    match firstLectureMatch fileName.data with
    | some (.two g1 g2) =>
      let lectureId := digitsToNat g1
      some (.lecture referenceId filePath lectureId (some g2)
        ("Lecture " ++ toString lectureId ++ ", Slides " ++ g2))
    | some (.one v) =>
      if v.length = 8 then
        some (.dated referenceId filePath v
          ("Course Slides (" ++ v.take 4 ++ "-" ++ (v.drop 4).take 2 ++ "-"
            ++ v.drop 6 ++ ")"))
      else
        let lectureId := digitsToNat v
        some (.lecture referenceId filePath lectureId none
          ("Lecture " ++ toString lectureId))
    | none =>
      match firstExamMatch fileName.data with
      | some (y, q) =>
        let questionNum := digitsToNat q
        some (.exam referenceId filePath y questionNum
          (y ++ " Exam, Question " ++ toString questionNum))
      | none =>
        some (.document referenceId filePath
          ("Reference Document [" ++ referenceId ++ "]: " ++ fileName))

example : extractSourceInfo ⟨"1", "lecture_8_slides_26-27.pdf"⟩ =
    some (.lecture "1" "lecture_8_slides_26-27.pdf" 8 (some "26-27")
      "Lecture 8, Slides 26-27") := by decide

example : extractSourceInfo ⟨"1", "Slides-20251022.pdf"⟩ =
    some (.dated "1" "Slides-20251022.pdf" "20251022"
      "Course Slides (2025-10-22)") := by decide

example : extractSourceInfo ⟨"2", "exam_2023_q5.pdf"⟩ =
    some (.exam "2" "exam_2023_q5.pdf" "2023" 5 "2023 Exam, Question 5") := by
  decide

example : extractSourceInfo ⟨"3", "notes_intro.pdf"⟩ =
    some (.document "3" "notes_intro.pdf"
      "Reference Document [3]: notes_intro.pdf") := by decide

example : extractSourceInfo ⟨"4", "/documents/数据挖掘_Lecture_8.pdf"⟩ =
    some (.lecture "4" "/documents/数据挖掘_Lecture_8.pdf" 8 none
      "Lecture 8") := by decide

/--
The JSON body of an HTTP response from the LightRAG service, as read by
`response.json()`.  Fields the source reads with `.get(key, default)` are
`Option`s here; the defaults are applied at the use sites, as in the source.
-/
structure ResponseBody where
  response : Option String
  references : Option (List RawReference)
  detail : Option String
  deriving DecidableEq

/--
The dictionary returned by `LightRAGClient.query` / `_parse_result`.  The
source returns dicts with different key sets per branch; keys absent in a
branch are `none` / `[]` here.
-/
structure QueryReturn where
  status : String
  error : Option String
  response : Option String
  references : List RawReference
  sources : List Citation
  rawResponse : Option ResponseBody
  deriving DecidableEq

/-- Embedding of `LightRAGClient._parse_result`. -/
def parseResult (result : ResponseBody) : QueryReturn :=
  { status := "success"
    error := none
    response := some (result.response.getD "")
    references := result.references.getD []
    sources := (result.references.getD []).filterMap extractSourceInfo
    rawResponse := some result }

/--
The outcome of the one `requests.post` call made by `query`: an HTTP
response with a status code and JSON body, a transport timeout
(`requests.exceptions.Timeout`), a transport connection failure
(`requests.exceptions.ConnectionError`), or any other exception raised
inside the `try` block.
-/
inductive TransportOutcome where
  | resp (statusCode : Nat) (body : ResponseBody)
  | timeout
  | connectionError
  | otherException (msg : String)
  deriving DecidableEq

/-- A `query` return dict that carries only an error message and a status. -/
def errorReturn (msg status : String) : QueryReturn :=
  { status := status
    error := some msg
    response := none
    references := []
    sources := []
    rawResponse := none }

/--
Embedding of `LightRAGClient.query`.  The HTTP transport is an explicit
input; the second component counts how many network calls (`requests.post`)
the execution performed.
-/
def queryExec (query : String) (outcome : TransportOutcome) : QueryReturn × Nat :=
  if query.length < 3 then
    (errorReturn "Query text must be at least 3 characters long" "bad_request", 0)
  else
    match outcome with
    | .resp code body =>
      if code = 200 then
        (parseResult body, 1)
      else if code = 400 ∨ code = 422 then
        (errorReturn (body.detail.getD "Bad request") "bad_request", 1)
      else if 500 ≤ code then
        (errorReturn (body.detail.getD "Internal server error") "server_error", 1)
      else
        (errorReturn ("API returned status " ++ toString code) "error", 1)
    | .timeout =>
      (errorReturn "Request timeout - query took too long to process" "timeout", 1)
    | .connectionError =>
      (errorReturn
        "Cannot connect to LightRAG server. Please ensure Docker container is running (docker-compose up -d)."
        "connection_error", 1)
    | .otherException msg =>
      (errorReturn msg "error", 1)

example :
    (queryExec "hi" .timeout).1.status = "bad_request" ∧
      (queryExec "hi" .timeout).2 = 0 := by decide

example :
    (queryExec "What is RAG" (.resp 404 ⟨none, none, none⟩)).1.status =
      "error" := by decide

/-- Anchored matcher for the primary handle pattern `uid=(\S+)` (case-sensitive). -/
def uidEqAt (s : List Char) : Option String :=
  match dropPrefixExact "uid=".data s with
  | none => none
  | some s1 =>
    let g := s1.takeWhile (fun c => !pySpace c)
    if g.isEmpty then none else some g.asString

/-- The class `[:\s]` of the legacy handle pattern (code point 58 is `:`). -/
def colonSpace (c : Char) : Bool := c.toNat = 58 || pySpace c

/-- The class `[^\]\s,]` capturing the legacy handle token
(code point 93 is `]`, 44 is `,`). -/
def uidTokenChar (c : Char) : Bool := !(c.toNat = 93 || pySpace c || c.toNat = 44)

/-- Anchored matcher for the legacy handle pattern `\[?uid[:\s]+([^\]\s,]+)` (IGNORECASE). -/
def uidLegacyAt (s : List Char) : Option String :=
  let s0 := match s with
    | '[' :: rest => rest
    | other => other
  match dropPrefixCI "uid".data s0 with
  | none => none
  | some s1 =>
    match sepPlusClassPlusEnd colonSpace uidTokenChar s1 with
    | none => none
    | some g => some g.asString

/--
Handle extraction from one snapshot line: the primary `uid=` pattern first,
then the legacy fallback, as in `parse_snapshot_for_text`.
-/
def extractUid (line : String) : Option String :=
  match reSearch uidEqAt line.data with
  | some uid => some uid
  | none => reSearch uidLegacyAt line.data

/--
One iteration of the line scan of `parse_snapshot_for_text`: `none` both
when the line does not contain the search text (or fails the element-type
filter) and when no handle pattern resolves within the line.
`searchText` is already lower-cased when `caseSensitive` is false.
-/
def lineHitText (searchText : String) (elementType : Option String)
    (caseSensitive : Bool) (line : String) : Option String :=
  let lineToSearch := if caseSensitive then line else lowerStr line
  if strContains lineToSearch searchText then
    match elementType with
    | some et =>
      if !strContains (lowerStr line) (lowerStr et) then none else extractUid line
    | none => extractUid line
  else none

/-- Embedding of `parse_snapshot_for_text` (the snapshot locator's text search). -/
def parseSnapshotForText (snapshot text : String) (elementType : Option String)
    (caseSensitive : Bool) : Option String :=
  let searchText := if caseSensitive then text else lowerStr text
  (pySplit '\n' snapshot).findSome? (lineHitText searchText elementType caseSensitive)

/-- Same-line check of method 1 of `parse_snapshot_for_input` (no type filter). -/
def inputSameLine (line : String) : Option String :=
  if strContains (lowerStr line) "textbox" || strContains (lowerStr line) "entry" then
    reSearch uidEqAt line.data
  else none

/-- Following-line check of method 1 of `parse_snapshot_for_input`. -/
def inputNextLine (inputType : Option String) (nextLine : String) : Option String :=
  if strContains (lowerStr nextLine) "textbox" || strContains (lowerStr nextLine) "entry" then
    match inputType with
    | some it =>
      if !strContains (lowerStr nextLine) (lowerStr it) then none
      else reSearch uidEqAt nextLine.data
    | none => reSearch uidEqAt nextLine.data
  else none

/--
Method 1 of `parse_snapshot_for_input`: find a line containing the label,
try that line itself, then scan the following up-to-10 lines for an
input-like element.
-/
def inputMethod1 (lines : List String) (labelLower : String)
    (inputType : Option String) : Option String :=
  lines.enum.findSome? (fun p =>
    if strContains (lowerStr p.2) labelLower then
      match inputSameLine p.2 with
      | some uid => some uid
      | none => ((lines.drop (p.1 + 1)).take 10).findSome? (inputNextLine inputType)
    else none)

/-- Method 2 of `parse_snapshot_for_input`: any textbox line containing the label. -/
def inputMethod2 (lines : List String) (labelLower : String) : Option String :=
  lines.findSome? (fun line =>
    if strContains (lowerStr line) "textbox" && strContains (lowerStr line) labelLower then
      reSearch uidEqAt line.data
    else none)

/-- Method 3 of `parse_snapshot_for_input`: a `name="<label>"`-style attribute match. -/
def inputMethod3 (lines : List String) (labelLower : String) : Option String :=
  let sq := (Char.ofNat 39).toString
  lines.findSome? (fun line =>
    if strContains (lowerStr line) ("name=\"" ++ labelLower ++ "\"")
        || strContains (lowerStr line) ("name=" ++ sq ++ labelLower ++ sq) then
      reSearch uidEqAt line.data
    else none)

/-- Embedding of `parse_snapshot_for_input` (the snapshot locator's label search). -/
def parseSnapshotForInput (snapshot label : String) (inputType : Option String) :
    Option String :=
  let labelLower := lowerStr label
  let lines := pySplit '\n' snapshot
  match inputMethod1 lines labelLower inputType with
  | some uid => some uid
  | none =>
    match inputMethod2 lines labelLower with
    | some uid => some uid
    | none => inputMethod3 lines labelLower

example :
    parseSnapshotForText "link Home uid=l_1\nbutton \"Add discussion topic\" uid=b_9"
      "Add discussion topic" (some "button") false = some "b_9" := by decide

example :
    parseSnapshotForText "nothing relevant here" "Add discussion topic"
      (some "button") false = none := by decide

example :
    parseSnapshotForInput "label Subject\ntextbox entry uid=i_4" "Subject" none =
      some "i_4" := by decide

example : parseSnapshotForInput "no fields" "Subject" none = none := by decide

/-- Python's `str.startswith`. -/
def strStartsWith (hay pre : String) : Bool := pre.data.isPrefixOf hay.data

/-- An ASCII apostrophe, kept out of string literals. -/
def sqChar : String := (Char.ofNat 39).toString

/-- Embedding of `validate_moodle_url`. -/
def validateMoodleUrl (url : String) : Bool :=
  if url = "" then false
  else if !strContains (lowerStr url) "moodle" then false
  else if !strStartsWith url "https://" then false
  else if !strContains url "/mod/forum/" && !strContains url "/forum/" then false
  else true

example : validateMoodleUrl "https://moodle.example.edu/mod/forum/view.php?id=123" = true := by
  decide

example : validateMoodleUrl "http://moodle.example.edu/mod/forum/view.php" = false := by
  decide

/--
A Python runtime value distinguishing a string from a coroutine object:
`course_tools.fill_moodle_forum` binds `message_html` to the coroutine
returned by calling the async `markdown_to_moodle_html` without `await`.
-/
inductive PyVal where
  | str (s : String)
  | coroutine
  deriving DecidableEq

/-- `json.dumps`: raises `TypeError` on a coroutine object. -/
def jsonDumps : PyVal → Except String String
  | .str s => .ok ("\"" ++ s ++ "\"")
  | .coroutine => .error "Object of type coroutine is not JSON serializable"

/-- Python `len`: raises `TypeError` on a coroutine object. -/
def pyLen : PyVal → Except String Nat
  | .str s => .ok s.length
  | .coroutine =>
    .error ("object of type " ++ sqChar ++ "coroutine" ++ sqChar ++ " has no len()")

/-- One MCP primitive call issued by `fill_moodle_forum`, in call order. -/
inductive MCPAction where
  | navigate (url : String) (timeout : Nat)
  | waitForText (text : String) (timeout : Nat)
  | takeSnapshot
  | click (uid : String)
  | fillForm (uid : String) (value : String)
  | evaluateScript
  deriving DecidableEq

/-- The JSON result dict of `fill_moodle_forum` (the keys the claims read). -/
structure FillOutcome where
  success : Bool
  error : Option String
  filledSubject : Option String
  messageLength : Option Nat
  messageHtmlLength : Option Nat
  deriving DecidableEq

/-- A `fill_moodle_forum` failure payload. -/
def fillFailure (msg : String) : FillOutcome :=
  { success := false, error := some msg, filledSubject := none
    messageLength := none, messageHtmlLength := none }

/--
The environment `fill_moodle_forum` runs against: whether the MCP imports
succeeded, the `MOODLE_FORUM_URL` environment variable, and the two page
snapshots returned by the two `mcp_take_snapshot` calls.
-/
structure FillEnv where
  mcpToolsAvailable : Bool
  envForumUrl : String
  snapshot1 : String
  snapshot2 : String
  deriving DecidableEq

/--
Embedding of `course_tools.fill_moodle_forum`.  Returns the result payload
together with the trace of MCP primitive calls issued.  The source binds
`message_html = markdown_to_moodle_html(message)` without `await`, so
`message_html` is a coroutine object; `json.dumps(message_html)` then
raises `TypeError`, which the surrounding `except Exception` turns into a
failure payload.
-/
def fillMoodleForum (env : FillEnv) (subject message : String)
    (forumUrlArg : Option String) : FillOutcome × List MCPAction :=
  if !env.mcpToolsAvailable then
    (fillFailure "MCP tools not available", [])
  else
    let urlArg := forumUrlArg.getD ""
    let forumUrl := if urlArg = "" then env.envForumUrl else urlArg
    if forumUrl = "" then
      (fillFailure "MOODLE_FORUM_URL not configured", [])
    else if !validateMoodleUrl forumUrl then
      (fillFailure "Invalid Moodle URL", [])
    else
      let trace1 : List MCPAction :=
        [.navigate forumUrl 30000, .waitForText "Add discussion topic" 10000,
          .takeSnapshot]
      match parseSnapshotForText env.snapshot1 "Add discussion topic"
          (some "button") false with
      | none =>
        (fillFailure ("Could not find " ++ sqChar ++ "Add discussion topic"
          ++ sqChar ++ " button"), trace1)
      | some buttonUid =>
        let trace2 := trace1 ++ [.click buttonUid, .waitForText "Subject" 10000,
          .takeSnapshot]
        match parseSnapshotForInput env.snapshot2 "Subject" none with
        | none => (fillFailure "Could not find Subject input field", trace2)
        | some subjectUid =>
          let trace3 := trace2 ++ [.fillForm subjectUid subject]
          let messageHtml : PyVal := PyVal.coroutine
          match jsonDumps messageHtml with
          | .error e => (fillFailure e, trace3)
          | .ok _ =>
            let trace4 := trace3 ++ [.evaluateScript]
            match pyLen messageHtml with
            | .error e => (fillFailure e, trace4)
            | .ok htmlLen =>
              ({ success := true, error := none, filledSubject := some subject
                 messageLength := some message.length
                 messageHtmlLength := some htmlLen }, trace4)

/--
Where a task calling `MCPClient.connect` is suspended.  `entry` is before
the initial `if self._initialized` check; `polling` is at the
`await asyncio.sleep(0.1)` of the readiness loop; `done` is after returning
`self.tools`.
-/
inductive CallerPC where
  | entry
  | polling
  | done
  deriving DecidableEq

/--
The shared state of one `MCPClient` plus two tasks running `connect`, under
asyncio's single-threaded cooperative scheduling.  `pendingMaintain` counts
`_maintain_connection` tasks created but not yet past their handshake;
`liveMaintain` counts those blocked forever on `asyncio.Event().wait()`
after the handshake; both kinds exist at once when their sum is ≥ 2.
-/
structure MCPState where
  initialized : Bool
  pendingMaintain : Nat
  liveMaintain : Nat
  handshakes : Nat
  callerA : CallerPC
  callerB : CallerPC
  deriving DecidableEq

/-- Number of `_maintain_connection` background tasks currently in existence. -/
def maintainTaskCount (s : MCPState) : Nat := s.pendingMaintain + s.liveMaintain

/-- Which task the cooperative scheduler runs next. -/
inductive TaskId where
  | callerA
  | callerB
  | maintain
  deriving DecidableEq

/--
One atomic segment of `connect` for one caller task (atomic = no `await`
inside).  From `entry`: the `if self._initialized: return self.tools` fast
path, else the synchronous block through
`asyncio.create_task(_maintain_connection())` and the first loop check,
suspending at `asyncio.sleep(0.1)`.  From `polling`: re-check
`self._initialized` and either return or sleep again (the timeout branch is
not modelled; the schedules of interest never reach it).
-/
def stepCaller (pc : CallerPC) (s : MCPState) : CallerPC × MCPState :=
  match pc with
  | .entry =>
    if s.initialized then (.done, s)
    else (.polling, { s with pendingMaintain := s.pendingMaintain + 1 })
  | .polling =>
    if s.initialized then (.done, s) else (.polling, s)
  | .done => (.done, s)

/--
One scheduler step.  Running a pending `_maintain_connection` task performs
its handshake (`initialize` + `list_tools`, setting `self._initialized`)
and leaves it waiting forever; running it again is a no-op.
-/
def mcpStep (t : TaskId) (s : MCPState) : MCPState :=
  match t with
  | .callerA =>
    let r := stepCaller s.callerA s
    { r.2 with callerA := r.1 }
  | .callerB =>
    let r := stepCaller s.callerB s
    { r.2 with callerB := r.1 }
  | .maintain =>
    match s.pendingMaintain with
    | 0 => s
    | n + 1 =>
      { s with pendingMaintain := n, liveMaintain := s.liveMaintain + 1
               initialized := true, handshakes := s.handshakes + 1 }

/-- Run the cooperative scheduler along an explicit schedule. -/
def mcpRun (sched : List TaskId) (s : MCPState) : MCPState :=
  sched.foldl (fun c t => mcpStep t c) s

/-- A fresh `MCPClient` with two tasks each about to call `connect`. -/
def mcpInitial : MCPState :=
  { initialized := false, pendingMaintain := 0, liveMaintain := 0
    handshakes := 0, callerA := .entry, callerB := .entry }

example : maintainTaskCount (mcpRun [.callerA, .callerB] mcpInitial) = 2 := by decide

example :
    (mcpRun [.callerA, .callerB, .maintain, .maintain] mcpInitial).handshakes = 2 := by
  decide

theorem lowerChar_eq_self {c : Char} (h : ¬(65 ≤ c.toNat ∧ c.toNat ≤ 90)) :
    lowerChar c = c := by
  unfold lowerChar
  rw [if_neg h]

theorem lowerChar_toNat_of_upper {c : Char} (h : 65 ≤ c.toNat ∧ c.toNat ≤ 90) :
    (lowerChar c).toNat = c.toNat + 32 := by
  unfold lowerChar
  rw [if_pos h]
  unfold Char.ofNat
  rw [dif_pos]
  · rfl
  · left
    omega

theorem ciEq_s_eq_false {c : Char} (h1 : c.toNat ≠ 115) (h2 : c.toNat ≠ 83) :
    ciEq 's' c = false := by
  unfold ciEq
  rw [show lowerChar 's' = 's' from by decide]
  by_cases hc : 65 ≤ c.toNat ∧ c.toNat ≤ 90
  · have ht := lowerChar_toNat_of_upper hc
    refine beq_eq_false_iff_ne.mpr fun e => ?_
    have : (lowerChar c).toNat = 115 := by rw [← e]; rfl
    omega
  · rw [lowerChar_eq_self hc]
    refine beq_eq_false_iff_ne.mpr fun e => ?_
    have : c.toNat = 115 := by rw [← e]; rfl
    exact h1 this

theorem sep_toNat {c : Char} (h : isSep c = true) :
    c.toNat = 95 ∨ c.toNat = 32 ∨ c.toNat = 9 ∨ c.toNat = 10 ∨ c.toNat = 11 ∨
      c.toNat = 12 ∨ c.toNat = 13 ∨ c.toNat = 45 := by
  simp only [isSep, pySpace, Bool.or_eq_true, decide_eq_true_eq] at h
  tauto

theorem digit_toNat {c : Char} (h : isDigitChar c = true) :
    48 ≤ c.toNat ∧ c.toNat ≤ 57 := by
  simpa [isDigitChar] using h

theorem isSep_eq_false_of_digit {c : Char} (h : isDigitChar c = true) :
    isSep c = false := by
  have hd := digit_toNat h
  rw [Bool.eq_false_iff]
  intro hs
  rcases sep_toNat hs with h' | h' | h' | h' | h' | h' | h' | h' <;> omega

theorem ciEq_s_false_of_sep {c : Char} (h : isSep c = true) : ciEq 's' c = false := by
  rcases sep_toNat h with h' | h' | h' | h' | h' | h' | h' | h' <;>
    exact ciEq_s_eq_false (by omega) (by omega)

theorem ciEq_s_false_of_digitHyphen {c : Char} (h : isDigitHyphen c = true) :
    ciEq 's' c = false := by
  simp only [isDigitHyphen, Bool.or_eq_true, decide_eq_true_eq] at h
  rcases h with h | h
  · have := digit_toNat h
    exact ciEq_s_eq_false (by omega) (by omega)
  · exact ciEq_s_eq_false (by omega) (by omega)

theorem sepStarClassPlusEnd_head {sep cls : Char → Bool} {c : Char}
    {cs g : List Char} (h : sepStarClassPlusEnd sep cls (c :: cs) = some g) :
    sep c = true ∨ cls c = true := by
  unfold sepStarClassPlusEnd at h
  by_cases h1 : sep c = true
  · exact .inl h1
  · simp only [h1, if_false] at h
    by_cases h2 : cls c = true
    · exact .inr h2
    · simp [h1, h2] at h

theorem optCI_s_of_sepStar {s g : List Char}
    (h : sepStarClassPlusEnd isSep isDigitHyphen s = some g) : optCI 's' s = s := by
  cases s with
  | nil => rfl
  | cons c cs =>
    unfold optCI
    rcases sepStarClassPlusEnd_head h with h1 | h1
    · simp [ciEq_s_false_of_sep h1]
    · simp [ciEq_s_false_of_digitHyphen h1]

/--
Any anchored match of the compact pattern
`lecture(\d+)[_\s-]*slide[_\s-]*([\d\-]+)` is also an anchored match of the
standard pattern `lecture[_\s-]*(\d+)[_\s-]*slides?[_\s-]*([\d\-]+)`, which
precedes it in `lecture_patterns`.
-/
theorem compactAt_isSome_imp_stdAt {t : List Char}
    (h : (lecSlideCompactAt t).isSome) : (lecSlideStdAt t).isSome := by
  simp only [lecSlideCompactAt] at h
  simp only [lecSlideStdAt]
  cases h1 : dropPrefixCI "lecture".data t with
  | none => simp [h1] at h
  | some s1 =>
    simp only [h1] at h ⊢
    cases hg : (s1.takeWhile isDigitChar).isEmpty with
    | true => simp [hg] at h
    | false =>
      simp only [hg, Bool.false_eq_true, if_false] at h
      cases s1 with
      | nil => simp [List.takeWhile] at hg
      | cons c r =>
        have hc : isDigitChar c = true := by
          by_contra hcc
          rw [Bool.not_eq_true] at hcc
          simp [List.takeWhile_cons, hcc] at hg
        have hsep : isSep c = false := isSep_eq_false_of_digit hc
        have hdw : (c :: r).dropWhile isSep = c :: r := by
          rw [List.dropWhile_cons, if_neg (by simp [hsep])]
        rw [hdw]
        simp only [hg, Bool.false_eq_true, if_false]
        cases h2 : dropPrefixCI "slide".data
            (((c :: r).dropWhile isDigitChar).dropWhile isSep) with
        | none => simp [h2] at h
        | some s5 =>
          simp only [h2] at h ⊢
          cases h3 : sepStarClassPlusEnd isSep isDigitHyphen s5 with
          | none => simp [h3] at h
          | some g2 =>
            rw [optCI_s_of_sepStar h3, h3]
            simp

theorem reSearch_isSome_mono {α : Type} {m1 m2 : List Char → Option α}
    (hm : ∀ t, (m1 t).isSome → (m2 t).isSome) :
    ∀ s, (reSearch m1 s).isSome → (reSearch m2 s).isSome := by
  intro s
  induction s with
  | nil => exact hm []
  | cons c cs ih =>
    intro h
    simp only [reSearch] at h ⊢
    cases h1 : m1 (c :: cs) with
    | some r =>
      cases h2 : m2 (c :: cs) with
      | some r2 => simp
      | none =>
        have := hm (c :: cs) (by simp [h1])
        rw [h2] at this
        simp at this
    | none =>
      simp only [h1] at h
      cases h2 : m2 (c :: cs) with
      | some r2 => simp
      | none => simpa using ih h

theorem reSearch_shape {m : List Char → Option PatGroups}
    (hm : ∀ t r, m t = some r → ∃ a b, r = .two a b) :
    ∀ s r, reSearch m s = some r → ∃ a b, r = .two a b := by
  intro s
  induction s with
  | nil => exact hm []
  | cons c cs ih =>
    intro r h
    simp only [reSearch] at h
    cases h1 : m (c :: cs) with
    | some r2 =>
      simp only [h1, Option.some.injEq] at h
      subst h
      exact hm (c :: cs) r2 h1
    | none =>
      simp only [h1] at h
      exact ih r h

theorem lecSlideStdAt_two {t : List Char} {r : PatGroups}
    (h : lecSlideStdAt t = some r) : ∃ a b, r = PatGroups.two a b := by
  simp only [lecSlideStdAt] at h
  repeat' split at h
  all_goals simp_all
  exact ⟨_, _, h.symm⟩

theorem lecSlideCNAt_two {t : List Char} {r : PatGroups}
    (h : lecSlideCNAt t = some r) : ∃ a b, r = PatGroups.two a b := by
  simp only [lecSlideCNAt] at h
  repeat' split at h
  all_goals simp_all
  exact ⟨_, _, h.symm⟩

/--
C1.  For every `RawReference` whose `file_path` is non-empty,
`_extract_source_info` returns exactly one citation record (a value of the
four-variant `Citation` type); for an empty `file_path` it returns `None`,
and `_parse_result` drops that reference from the sources list while still
returning a `success` result (no error is signalled).
-/
theorem extract_source_info_total_and_parse_result_drops :
    (∀ ref : RawReference, ref.filePath ≠ "" → ∃ c, extractSourceInfo ref = some c) ∧
      (∀ ref : RawReference, ref.filePath = "" → extractSourceInfo ref = none) ∧
      (∀ body : ResponseBody,
        (parseResult body).sources =
            (body.references.getD []).filterMap extractSourceInfo ∧
          (parseResult body).status = "success") := by
  refine ⟨?_, ?_, fun body => ⟨rfl, rfl⟩⟩
  · intro ref h
    simp only [extractSourceInfo]
    rw [if_neg h]
    split
    · exact ⟨_, rfl⟩
    · split
      · exact ⟨_, rfl⟩
      · exact ⟨_, rfl⟩
    · split
      · exact ⟨_, rfl⟩
      · exact ⟨_, rfl⟩
  · intro ref h
    simp only [extractSourceInfo]
    rw [if_pos h]

/-- Witness for C1 at a concrete non-empty reference. -/
theorem extract_source_info_total_witness :
    ∃ c, extractSourceInfo ⟨"9", "Slides-20251022_副本.pdf"⟩ = some c :=
  extract_source_info_total_and_parse_result_drops.1
    ⟨"9", "Slides-20251022_副本.pdf"⟩ (by decide)

/--
C2.  The citation parser applies its pattern matchers in a fixed priority
order and builds the citation from the first pattern that matches: any
file name matching one of the lecture-with-slide-range patterns (the
standard, Chinese, or compact form) resolves to the lecture variant with a
slide range — never to the generic fallback — and in particular
`lecture_8_slides_26-27.pdf` yields lecture 8, slide range `26-27` and
citation text `Lecture 8, Slides 26-27`.
-/
theorem lecture_slide_patterns_have_priority :
    (∀ ref : RawReference, ref.filePath ≠ "" →
      ((reSearch lecSlideStdAt ((pySplit '/' ref.filePath).getLastD "").data).isSome ∨
        (reSearch lecSlideCNAt ((pySplit '/' ref.filePath).getLastD "").data).isSome ∨
        (reSearch lecSlideCompactAt ((pySplit '/' ref.filePath).getLastD "").data).isSome) →
      ∃ lid range text, extractSourceInfo ref =
        some (.lecture ref.referenceId ref.filePath lid (some range) text)) ∧
      extractSourceInfo ⟨"1", "lecture_8_slides_26-27.pdf"⟩ =
        some (.lecture "1" "lecture_8_slides_26-27.pdf" 8 (some "26-27")
          "Lecture 8, Slides 26-27") := by
  constructor
  · intro ref h hdisj
    have hkey : ∃ a b,
        firstLectureMatch ((pySplit '/' ref.filePath).getLastD "").data =
          some (PatGroups.two a b) := by
      have hstd :
          (reSearch lecSlideStdAt ((pySplit '/' ref.filePath).getLastD "").data).isSome ∨
            (reSearch lecSlideStdAt ((pySplit '/' ref.filePath).getLastD "").data = none ∧
              (reSearch lecSlideCNAt ((pySplit '/' ref.filePath).getLastD "").data).isSome) := by
        rcases hdisj with h1 | h2 | h3
        · exact .inl h1
        · cases hh : reSearch lecSlideStdAt ((pySplit '/' ref.filePath).getLastD "").data with
          | some r => exact .inl (by simp [hh])
          | none => exact .inr ⟨rfl, h2⟩
        · exact .inl (reSearch_isSome_mono
            (fun t ht => compactAt_isSome_imp_stdAt ht) _ h3)
      unfold firstLectureMatch lecturePatterns
      rcases hstd with h1 | ⟨h2a, h2b⟩
      · obtain ⟨r, hr⟩ := Option.isSome_iff_exists.mp h1
        obtain ⟨a, b, rfl⟩ :=
          reSearch_shape (fun t r hh => lecSlideStdAt_two hh) _ r hr
        exact ⟨a, b, by simp only [List.findSome?_cons, hr]⟩
      · obtain ⟨r, hr⟩ := Option.isSome_iff_exists.mp h2b
        obtain ⟨a, b, rfl⟩ :=
          reSearch_shape (fun t r hh => lecSlideCNAt_two hh) _ r hr
        exact ⟨a, b, by simp only [List.findSome?_cons, h2a, hr]⟩
    obtain ⟨a, b, hm⟩ := hkey
    refine ⟨digitsToNat a, b,
      "Lecture " ++ toString (digitsToNat a) ++ ", Slides " ++ b, ?_⟩
    simp only [extractSourceInfo]
    rw [if_neg h, hm]
  · decide

/-- Witness for C2 on a name matching only the compact slide pattern. -/
theorem lecture_slide_patterns_have_priority_witness :
    ∃ lid range text, extractSourceInfo ⟨"7", "Lecture3_slide_4-5.pdf"⟩ =
      some (.lecture "7" "Lecture3_slide_4-5.pdf" lid (some range) text) :=
  lecture_slide_patterns_have_priority.1 ⟨"7", "Lecture3_slide_4-5.pdf"⟩
    (by decide) (.inr (.inr (by decide)))

/--
C3.  When the first matching lecture-family pattern captures a single
group, `_extract_source_info` interprets a capture of exactly 8 digits as a
`YYYYMMDD` date (a dated-slide citation), and a capture of any other length
as a lecture id (a lecture citation with no slide range).
-/
theorem single_capture_eight_digits_is_date :
    ∀ (ref : RawReference) (v : String), ref.filePath ≠ "" →
      firstLectureMatch ((pySplit '/' ref.filePath).getLastD "").data =
          some (.one v) →
      extractSourceInfo ref =
        (if v.length = 8 then
          some (.dated ref.referenceId ref.filePath v
            ("Course Slides (" ++ v.take 4 ++ "-" ++ (v.drop 4).take 2 ++ "-"
              ++ v.drop 6 ++ ")"))
        else
          some (.lecture ref.referenceId ref.filePath (digitsToNat v) none
            ("Lecture " ++ toString (digitsToNat v)))) := by
  intro ref v h hm
  simp only [extractSourceInfo]
  rw [if_neg h, hm]

/-- Witness for C3: `Slides-20251022.pdf` yields the dated-slide citation. -/
theorem single_capture_eight_digits_is_date_witness :
    extractSourceInfo ⟨"1", "Slides-20251022.pdf"⟩ =
      some (.dated "1" "Slides-20251022.pdf" "20251022"
        "Course Slides (2025-10-22)") := by
  have h := single_capture_eight_digits_is_date ⟨"1", "Slides-20251022.pdf"⟩
    "20251022" (by decide) (by decide)
  rw [h]
  decide

/--
C5.  For every query string shorter than 3 characters, `query` returns a
`bad_request` outcome immediately and performs no network call.
-/
theorem short_query_bad_request_no_network :
    ∀ (q : String) (outcome : TransportOutcome), q.length < 3 →
      (queryExec q outcome).1.status = "bad_request" ∧
        (queryExec q outcome).2 = 0 := by
  intro q outcome h
  simp only [queryExec]
  rw [if_pos h]
  exact ⟨rfl, rfl⟩

/-- Witness for C5 at the two-character query. -/
theorem short_query_bad_request_no_network_witness :
    (queryExec "hi" .timeout).1.status = "bad_request" ∧
      (queryExec "hi" .timeout).2 = 0 :=
  short_query_bad_request_no_network "hi" .timeout (by decide)

/--
C4.  For queries long enough to reach the transport, `query` maps every
outcome onto the status taxonomy: HTTP 200 yields the parsed `success`
result with the citation parser run over every reference of the body;
HTTP 400/422 yields `bad_request` surfacing the service's detail; status
ℕ ≥ 500 yields `server_error` surfacing detail; a transport timeout yields
`timeout`; a transport connection failure yields `connection_error`; and
the latter two statuses are distinct values.
-/
theorem query_status_taxonomy :
    ∀ (q : String) (outcome : TransportOutcome), 3 ≤ q.length →
      ((∀ body, outcome = .resp 200 body →
          (queryExec q outcome).1 = parseResult body ∧
            (queryExec q outcome).1.status = "success" ∧
            (queryExec q outcome).1.sources =
              (body.references.getD []).filterMap extractSourceInfo) ∧
        (∀ code body, outcome = .resp code body → code = 400 ∨ code = 422 →
          (queryExec q outcome).1 =
            errorReturn (body.detail.getD "Bad request") "bad_request") ∧
        (∀ code body, outcome = .resp code body → 500 ≤ code →
          (queryExec q outcome).1 =
            errorReturn (body.detail.getD "Internal server error") "server_error") ∧
        (queryExec q .timeout).1.status = "timeout" ∧
        (queryExec q .connectionError).1.status = "connection_error" ∧
        (queryExec q .timeout).1.status ≠ (queryExec q .connectionError).1.status) := by
  intro q outcome h
  have hq : ¬q.length < 3 := Nat.not_lt.mpr h
  refine ⟨?_, ?_, ?_, ?_, ?_, ?_⟩
  · rintro body rfl
    simp only [queryExec]
    rw [if_neg hq]
    exact ⟨rfl, rfl, rfl⟩
  · rintro code body rfl hc
    simp only [queryExec]
    rw [if_neg hq]
    have h200 : ¬code = 200 := by rcases hc with rfl | rfl <;> decide
    rw [if_neg h200, if_pos hc]
  · rintro code body rfl hc
    have h200 : ¬code = 200 := by omega
    have h4xx : ¬(code = 400 ∨ code = 422) := by omega
    simp only [queryExec]
    rw [if_neg hq, if_neg h200, if_neg h4xx, if_pos hc]
  · simp only [queryExec]
    rw [if_neg hq]
    rfl
  · simp only [queryExec]
    rw [if_neg hq]
    rfl
  · simp only [queryExec]
    simp only [if_neg hq]
    decide

/-- Witness for C4: a timeout on a well-formed query maps to `timeout`. -/
theorem query_status_taxonomy_witness :
    (queryExec "What is RAG" .timeout).1.status = "timeout" :=
  (query_status_taxonomy "What is RAG" .timeout (by decide)).2.2.2.1

/--
C10.  `query` never propagates an exception: every input and transport
outcome yields a dict whose `status` is one of six strings; HTTP responses
whose code is none of 200, 400, 422 or ≥ 500 (e.g. 404), and unexpected
internal exceptions, produce the status `error`, which lies outside the
five-value taxonomy `success` / `bad_request` / `server_error` / `timeout`
/ `connection_error`.
-/
theorem query_status_total_with_error_fallback :
    ∀ (q : String) (outcome : TransportOutcome),
      ((queryExec q outcome).1.status = "success" ∨
        (queryExec q outcome).1.status = "bad_request" ∨
        (queryExec q outcome).1.status = "server_error" ∨
        (queryExec q outcome).1.status = "timeout" ∨
        (queryExec q outcome).1.status = "connection_error" ∨
        (queryExec q outcome).1.status = "error") ∧
      (∀ code body, outcome = .resp code body → 3 ≤ q.length →
        code ≠ 200 → ¬(code = 400 ∨ code = 422) → code < 500 →
        (queryExec q outcome).1.status = "error" ∧
          (queryExec q outcome).1.error =
            some ("API returned status " ++ toString code)) ∧
      (∀ msg, outcome = .otherException msg → 3 ≤ q.length →
        (queryExec q outcome).1.status = "error") ∧
      (("error" : String) ≠ "success" ∧ ("error" : String) ≠ "bad_request" ∧
        ("error" : String) ≠ "server_error" ∧ ("error" : String) ≠ "timeout" ∧
        ("error" : String) ≠ "connection_error") := by
  intro q outcome
  refine ⟨?_, ?_, ?_, by decide⟩
  · cases outcome with
    | resp code body =>
      simp only [queryExec]
      by_cases hq : q.length < 3
      · rw [if_pos hq]; tauto
      · rw [if_neg hq]
        by_cases h200 : code = 200
        · rw [if_pos h200]; tauto
        · rw [if_neg h200]
          by_cases h4xx : code = 400 ∨ code = 422
          · rw [if_pos h4xx]; tauto
          · rw [if_neg h4xx]
            by_cases h5xx : 500 ≤ code
            · rw [if_pos h5xx]; tauto
            · rw [if_neg h5xx]; tauto
    | timeout =>
      simp only [queryExec]
      by_cases hq : q.length < 3
      · rw [if_pos hq]; tauto
      · rw [if_neg hq]; tauto
    | connectionError =>
      simp only [queryExec]
      by_cases hq : q.length < 3
      · rw [if_pos hq]; tauto
      · rw [if_neg hq]; tauto
    | otherException msg =>
      simp only [queryExec]
      by_cases hq : q.length < 3
      · rw [if_pos hq]; tauto
      · rw [if_neg hq]; tauto
  · rintro code body rfl hlen h200 h4xx h5xx
    have hq : ¬q.length < 3 := Nat.not_lt.mpr hlen
    have h5 : ¬500 ≤ code := by omega
    simp only [queryExec]
    rw [if_neg hq, if_neg h200, if_neg h4xx, if_neg h5]
    exact ⟨rfl, rfl⟩
  · rintro msg rfl hlen
    have hq : ¬q.length < 3 := Nat.not_lt.mpr hlen
    simp only [queryExec]
    rw [if_neg hq]
    rfl

theorem findSome_eq_none_of_all {α β : Type} {f : α → Option β} :
    ∀ {l : List α}, (∀ x ∈ l, f x = none) → l.findSome? f = none := by
  intro l
  induction l with
  | nil => intro; rfl
  | cons c cs ih =>
    intro h
    rw [List.findSome?_cons]
    simp only [h c (by simp)]
    exact ih fun x hx => h x (by simp [hx])

theorem findSome_eq_some_iff {α β : Type} {f : α → Option β} {b : β} :
    ∀ {l : List α}, l.findSome? f = some b ↔
      ∃ l1 a l2, l = l1 ++ a :: l2 ∧ f a = some b ∧ ∀ x ∈ l1, f x = none := by
  intro l
  induction l with
  | nil =>
    constructor
    · intro h
      simp [List.findSome?_nil] at h
    · rintro ⟨l1, a, l2, hl, _, _⟩
      simp at hl
  | cons c cs ih =>
    rw [List.findSome?_cons]
    cases hc : f c with
    | some d =>
      constructor
      · intro h
        exact ⟨[], c, cs, rfl, hc.trans h, by simp⟩
      · rintro ⟨l1, a, l2, hl, hfa, hnone⟩
        cases l1 with
        | nil =>
          simp only [List.nil_append, List.cons.injEq] at hl
          obtain ⟨rfl, rfl⟩ := hl
          exact hc.symm.trans hfa
        | cons x l1 =>
          simp only [List.cons_append, List.cons.injEq] at hl
          obtain ⟨rfl, _⟩ := hl
          exact absurd (hnone c (by simp)) (by simp [hc])
    | none =>
      constructor
      · intro h
        obtain ⟨l1, a, l2, hl, hfa, hnone⟩ := ih.mp h
        exact ⟨c :: l1, a, l2, by simp [hl], hfa,
          fun x hx => by
            rcases List.mem_cons.mp hx with rfl | hx
            · exact hc
            · exact hnone x hx⟩
      · rintro ⟨l1, a, l2, hl, hfa, hnone⟩
        cases l1 with
        | nil =>
          simp only [List.nil_append, List.cons.injEq] at hl
          obtain ⟨rfl, rfl⟩ := hl
          exact absurd hfa (by simp [hc])
        | cons x l1 =>
          simp only [List.cons_append, List.cons.injEq] at hl
          obtain ⟨rfl, hl2⟩ := hl
          exact ih.mpr ⟨l1, a, l2, hl2, hfa,
            fun y hy => hnone y (by simp [hy])⟩

/--
C9.  The snapshot locator's text search scans the snapshot line by line
(case-insensitively by default): it returns a handle exactly when some
line contains the search text (and the element type, when given) and a
handle pattern resolves within it, namely the handle of the first such
line; within a line the primary `uid=` pattern is tried before the legacy
fallback; it returns `None` — never an exception — when no line matches or
no handle resolves within any matching line, and the label search likewise
returns `None` when all three of its tiers fail.
-/
theorem snapshot_locator_null_not_exception :
    (∀ (snapshot text : String) (elementType : Option String) (uid : String),
      parseSnapshotForText snapshot text elementType false = some uid ↔
        ∃ l1 line l2, pySplit '\n' snapshot = l1 ++ line :: l2 ∧
          lineHitText (lowerStr text) elementType false line = some uid ∧
          ∀ l ∈ l1, lineHitText (lowerStr text) elementType false l = none) ∧
      (∀ (snapshot text : String) (elementType : Option String),
        (∀ line ∈ pySplit '\n' snapshot,
          lineHitText (lowerStr text) elementType false line = none) →
        parseSnapshotForText snapshot text elementType false = none) ∧
      (∀ (line uid : String), reSearch uidEqAt line.data = some uid →
        extractUid line = some uid) ∧
      (∀ line : String, reSearch uidEqAt line.data = none →
        extractUid line = reSearch uidLegacyAt line.data) ∧
      (∀ (snapshot label : String) (inputType : Option String),
        inputMethod1 (pySplit '\n' snapshot) (lowerStr label) inputType = none →
        inputMethod2 (pySplit '\n' snapshot) (lowerStr label) = none →
        inputMethod3 (pySplit '\n' snapshot) (lowerStr label) = none →
        parseSnapshotForInput snapshot label inputType = none) := by
  refine ⟨?_, ?_, ?_, ?_, ?_⟩
  · intro snapshot text elementType uid
    simp only [parseSnapshotForText, Bool.false_eq_true, if_false]
    exact findSome_eq_some_iff
  · intro snapshot text elementType h
    simp only [parseSnapshotForText, Bool.false_eq_true, if_false]
    exact findSome_eq_none_of_all h
  · intro line uid h
    simp [extractUid, h]
  · intro line h
    simp [extractUid, h]
  · intro snapshot label inputType h1 h2 h3
    simp only [parseSnapshotForInput, h1, h2]
    exact h3

/-- Witness for C9: a snapshot with no matching line yields `None`. -/
theorem snapshot_locator_null_witness :
    parseSnapshotForText "no relevant content" "Add discussion topic"
      (some "button") false = none :=
  snapshot_locator_null_not_exception.2.1 "no relevant content"
    "Add discussion topic" (some "button") (by decide)

/--
C6 counterexample.  Two `connect` calls interleaved while the client is
still uninitialized each run the synchronous segment through
`asyncio.create_task(_maintain_connection())` before either maintain task
is scheduled: the reachable state after the schedule `[callerA, callerB]`
holds two `_maintain_connection` background tasks at once, and scheduling
both maintain tasks performs two handshakes — refuting the claim that at
no reachable state do two maintain tasks exist and that both callers
observe one shared attempt.
-/
theorem connect_double_maintain_counterexample :
    maintainTaskCount (mcpRun [.callerA, .callerB] mcpInitial) = 2 ∧
      (mcpRun [.callerA, .callerB, .maintain, .maintain] mcpInitial).handshakes = 2 := by
  decide

/--
C6 amended.  `connect` is idempotent once the client is Ready: a call in
that state returns the tool map immediately, changing nothing but its own
program counter (no new `_maintain_connection` task).  But `connect` does
not serialize concurrent attempts: two calls that both begin while the
client is not initialized each spawn their own `_maintain_connection`
task, leaving two background tasks in existence at once.
-/
theorem connect_idempotent_ready_but_races_when_connecting :
    (∀ s : MCPState, s.initialized = true → s.callerA = .entry →
      mcpStep .callerA s = { s with callerA := .done }) ∧
      (∀ s : MCPState, s.initialized = false → s.callerA = .entry →
        s.callerB = .entry →
        maintainTaskCount (mcpRun [.callerA, .callerB] s) =
          maintainTaskCount s + 2) := by
  constructor
  · intro s h1 h2
    simp [mcpStep, stepCaller, h1, h2]
  · intro s h1 h2 h3
    simp [mcpRun, mcpStep, stepCaller, h1, h2, h3, maintainTaskCount]
    omega

/-- Witness for the amended C6 at the initial state. -/
theorem connect_idempotent_ready_witness :
    maintainTaskCount (mcpRun [.callerA, .callerB] mcpInitial) =
      maintainTaskCount mcpInitial + 2 :=
  connect_idempotent_ready_but_races_when_connecting.2 mcpInitial rfl rfl rfl

/--
C7 counterexample.  With an instruction-like subject and a message whose
first line is a Markdown heading, `fill_moodle_forum` fills the Subject
field with the supplied subject verbatim: the trace of MCP calls contains
`fill(uid, "write a post about RAG")` and no action carrying the derived
title "Understanding RAG" — there is no title-normalization step.
-/
theorem fill_forum_no_title_rederivation_counterexample :
    (fillMoodleForum
        ⟨true, "", "button \"Add discussion topic\" uid=b_1",
          "textbox \"Subject\" uid=i_7"⟩
        "write a post about RAG" "## Understanding RAG\nbody text"
        (some "https://moodle.example.edu/mod/forum/view.php?id=123")).2 =
      [.navigate "https://moodle.example.edu/mod/forum/view.php?id=123" 30000,
        .waitForText "Add discussion topic" 10000, .takeSnapshot, .click "b_1",
        .waitForText "Subject" 10000, .takeSnapshot,
        .fillForm "i_7" "write a post about RAG"] ∧
      ("write a post about RAG" : String) ≠ "Understanding RAG" := by
  decide

/--
C7 amended.  `fill_moodle_forum` performs no title normalization: whenever
the URL resolves and validates and both snapshot lookups succeed, the
Subject field is filled with the supplied subject verbatim and the message
body is not modified (no heading line is consumed); the subject is never
re-derived from the message.
-/
theorem fill_forum_fills_subject_verbatim :
    ∀ (env : FillEnv) (subject message : String) (forumUrlArg : Option String)
      (forumUrl buttonUid subjectUid : String),
      env.mcpToolsAvailable = true →
      (if forumUrlArg.getD "" = "" then env.envForumUrl else forumUrlArg.getD "") =
        forumUrl →
      forumUrl ≠ "" →
      validateMoodleUrl forumUrl = true →
      parseSnapshotForText env.snapshot1 "Add discussion topic" (some "button")
          false = some buttonUid →
      parseSnapshotForInput env.snapshot2 "Subject" none = some subjectUid →
      (fillMoodleForum env subject message forumUrlArg).2 =
        [.navigate forumUrl 30000, .waitForText "Add discussion topic" 10000,
          .takeSnapshot, .click buttonUid, .waitForText "Subject" 10000,
          .takeSnapshot, .fillForm subjectUid subject] := by
  intro env subject message forumUrlArg forumUrl buttonUid subjectUid
  intro havail hurl hne hvalid hbutton hsubject
  simp only [fillMoodleForum, havail, Bool.not_true, Bool.false_eq_true,
    if_false, hurl, hbutton, hsubject]
  rw [if_neg hne, hvalid]
  simp [jsonDumps]

/-- Witness for the amended C7 at a concrete happy-path environment. -/
theorem fill_forum_fills_subject_verbatim_witness :
    (fillMoodleForum
        ⟨true, "", "button \"Add discussion topic\" uid=b_5", "textbox \"Subject\" uid=i_6"⟩
        "My Title" "body" (some "https://moodle.example.edu/mod/forum/view.php")).2 =
      [.navigate "https://moodle.example.edu/mod/forum/view.php" 30000,
        .waitForText "Add discussion topic" 10000, .takeSnapshot, .click "b_5",
        .waitForText "Subject" 10000, .takeSnapshot, .fillForm "i_6" "My Title"] := by
  have h := fill_forum_fills_subject_verbatim
    ⟨true, "", "button \"Add discussion topic\" uid=b_5", "textbox \"Subject\" uid=i_6"⟩
    "My Title" "body" (some "https://moodle.example.edu/mod/forum/view.php")
    "https://moodle.example.edu/mod/forum/view.php" "b_5" "i_6"
    rfl (by decide) (by decide) (by decide) (by decide) (by decide)
  exact h

/--
C8.  The success path of `fill_moodle_forum` is unreachable: the source
binds `message_html = markdown_to_moodle_html(message)` without `await`,
so `json.dumps(message_html)` raises `TypeError` on the coroutine object
and the operation returns a failure payload even when every UI-automation
step succeeds — the success result carrying the subject, message length
and rendered-HTML length that the operation is documented to return is
never produced (and nothing after the Subject fill is executed, so no post
is ever submitted).
-/
theorem fill_forum_success_path_unreachable :
    (fillMoodleForum
        ⟨true, "", "button \"Add discussion topic\" uid=b_2",
          "textbox \"Subject\" uid=i_3"⟩
        "Understanding RAG Architecture" "## What I Understand\n- RAG has three components"
        (some "https://moodle.example.edu/mod/forum/view.php?id=123")).1 =
      fillFailure "Object of type coroutine is not JSON serializable" ∧
      (fillMoodleForum
          ⟨true, "", "button \"Add discussion topic\" uid=b_2",
            "textbox \"Subject\" uid=i_3"⟩
          "Understanding RAG Architecture" "## What I Understand\n- RAG has three components"
          (some "https://moodle.example.edu/mod/forum/view.php?id=123")).2 =
        [.navigate "https://moodle.example.edu/mod/forum/view.php?id=123" 30000,
          .waitForText "Add discussion topic" 10000, .takeSnapshot, .click "b_2",
          .waitForText "Subject" 10000, .takeSnapshot,
          .fillForm "i_3" "Understanding RAG Architecture"] := by
  decide

/-- Witness for C10: HTTP 404 on a well-formed query maps to `error`. -/
theorem query_status_total_with_error_fallback_witness :
    (queryExec "What is RAG" (.resp 404 ⟨none, none, none⟩)).1.status = "error" ∧
      (queryExec "What is RAG" (.resp 404 ⟨none, none, none⟩)).1.error =
        some ("API returned status " ++ toString (404 : Nat)) :=
  (query_status_total_with_error_fallback "What is RAG"
    (.resp 404 ⟨none, none, none⟩)).2.1 404 ⟨none, none, none⟩ rfl (by decide)
    (by decide) (by decide) (by decide)
